import Mathlib

/-!
Shallow embedding of the Haggl x402 authorization core
(src/x402/authorizer.py, src/x402/escrow.py, src/x402/credential_vault.py,
src/x402/schemas.py).

Modelling conventions:
* Python floats (USD amounts) are modelled as rationals.
* Python dicts are modelled as association lists with first-match lookup,
  in-place replacement on assignment to an existing key, and append on
  assignment to a new key (insertion order preserved, as in CPython).
* Randomness (secrets.token_urlsafe / secrets.token_hex) and the ambient
  clock (datetime.utcnow) are passed in explicitly through an environment
  record; freshness of generated identifiers is a hypothesis where a
  theorem needs it.
* The wallet is an external collaborator; its transfer_to_escrow call is
  modelled by its outcome: success with the receipt fields, failure with
  an optional error message, or a raised exception.
* Human-readable f-strings (rejection reasons, audit details) are
  modelled as tagged values carrying the same data as the source strings.
* Timestamps (ISO strings in the source) are modelled as integers;
  comparison of ISO strings of datetimes agrees with numeric comparison.
-/

namespace Haggl

/-- Association-list model of a Python dict with string keys
(first-match lookup). -/
def SDict.lookup {α : Type} : List (String × α) → String → Option α
  | [], _ => none
  | p :: ps, k => if p.1 = k then some p.2 else SDict.lookup ps k

/-- Python dict assignment: replace in place if the key is present,
otherwise append (CPython preserves insertion order). -/
def SDict.insert {α : Type} : List (String × α) → String → α → List (String × α)
  | [], k, v => [(k, v)]
  | p :: ps, k, v => if p.1 = k then (k, v) :: ps else p :: SDict.insert ps k v

/-- Python dict deletion (dict.pop discards the entry). -/
def SDict.erase {α : Type} : List (String × α) → String → List (String × α)
  | [], _ => []
  | p :: ps, k => if p.1 = k then SDict.erase ps k else p :: SDict.erase ps k

/-- Python dict.values() in insertion order. -/
def SDict.values {α : Type} (l : List (String × α)) : List α :=
  l.map Prod.snd

/-! ## schemas.py -/

/-- AuthorizationStatus (schemas.py). -/
inductive AuthorizationStatus where
  | pending
  | authorized
  | rejected
  | expired
  | executed
deriving DecidableEq

/-- Invoice (schemas.py); line_items carries opaque entries. -/
structure Invoice where
  invoice_id : String
  vendor_name : String
  vendor_id : Option String := none
  amount_usd : ℚ
  currency : String := "USD"
  due_date : Option String := none
  payment_url : Option String := none
  description : Option String := none
  line_items : List String := []
deriving DecidableEq

/-- SpendingPolicy (schemas.py) with the source's default field values. -/
structure SpendingPolicy where
  per_transaction_max : ℚ := 500
  daily_limit : ℚ := 2000
  weekly_limit : ℚ := 5000
  require_memo : Bool := true
  min_confirmation_delay_seconds : ℕ := 0
deriving DecidableEq

/-- AuthorizationRequest (schemas.py). -/
structure AuthorizationRequest where
  invoice : Invoice
  budget_total : ℚ
  budget_remaining : ℚ
  request_id : Option String := none
deriving DecidableEq

/-- One entry of the per-check `checks` dict built by _check_policies;
each constructor carries the fields of the corresponding sub-dict. -/
inductive PolicyCheck where
  | per_transaction (limit amount : ℚ) (passed : Bool)
  | daily_limit (limit spent_today new_total : ℚ) (passed : Bool)
  | budget (total_budget remaining amount : ℚ) (passed : Bool)
  | duplicate (invoice_id : String) (passed : Bool)
deriving DecidableEq

/-- The `reason` string returned by _check_policies, as a tagged value
carrying the data interpolated into the source's f-strings. -/
inductive PolicyReason where
  | all_passed
  | per_transaction_exceeded (amount limit : ℚ)
  | daily_limit_exceeded (new_total limit : ℚ)
  | budget_exceeded (amount remaining : ℚ)
  | duplicate_auth (invoice_id : String)
deriving DecidableEq

/-- The `error` field of an AuthorizationResponse: a policy-check reason,
a wallet failure message (transfer_result error, defaulting to
"Transfer failed"), or the message of a raised exception. -/
inductive AuthError where
  | policy (r : PolicyReason)
  | wallet (msg : String)
  | exception (msg : String)
deriving DecidableEq

/-- AuthorizationResponse (schemas.py); the ambient-clock `timestamp`
string is omitted (no claim mentions it). -/
structure AuthorizationResponse where
  request_id : String
  invoice_id : String
  status : AuthorizationStatus
  auth_token : Option String := none
  tx_hash : Option String := none
  explorer_url : Option String := none
  amount_authorized : Option ℚ := none
  escrow_address : Option String := none
  error : Option AuthError := none
  policy_checks : List PolicyCheck := []
deriving DecidableEq

/-! ## escrow.py (mock mode: the in-memory store) -/

/-- EscrowStatus (escrow.py). -/
inductive EscrowStatus where
  | locked
  | released
  | refunded
  | expired
deriving DecidableEq

/-- EscrowLock (escrow.py); locked_at / expires_at / released_at ISO
strings are modelled as integer times. -/
structure EscrowLock where
  escrow_id : String
  invoice_id : String
  business_id : String
  vendor_id : Option String := none
  amount_usdc : ℚ
  auth_token : String
  tx_hash : String
  status : EscrowStatus := EscrowStatus.locked
  locked_at : ℤ
  expires_at : ℤ
  released_at : Option ℤ := none
  release_tx_hash : Option String := none
  release_recipient : Option String := none
  refund_reason : Option String := none
deriving DecidableEq

/-- EscrowRelease (escrow.py). -/
structure EscrowRelease where
  release_id : String
  escrow_id : String
  invoice_id : String
  vendor_id : String
  vendor_wallet : Option String := none
  vendor_bank_confirmed : Bool
  amount_usdc : ℚ
  tx_hash : String
  released_at : ℤ
  ach_confirmation : Option String := none
deriving DecidableEq

/-- The EscrowManager's mutable state in mock mode:
_mock_escrows (dict escrow_id → lock) and _mock_releases. -/
structure EscrowState where
  escrows : List (String × EscrowLock)
  releases : List EscrowRelease
deriving DecidableEq

/-- EscrowManager.create_lock. The random escrow id and the current time
are explicit arguments; expires = now + expiry_hours (72 h in the only
caller) scaled to seconds. -/
def create_lock (st : EscrowState) (invoice_id business_id : String)
    (amount_usdc : ℚ) (auth_token tx_hash : String) (vendor_id : Option String)
    (expiry_hours : ℤ) (escrow_id : String) (now : ℤ) :
    EscrowLock × EscrowState :=
  let lock : EscrowLock :=
    { escrow_id := escrow_id
      invoice_id := invoice_id
      business_id := business_id
      vendor_id := vendor_id
      amount_usdc := amount_usdc
      auth_token := auth_token
      tx_hash := tx_hash
      status := EscrowStatus.locked
      locked_at := now
      expires_at := now + expiry_hours * 3600 }
  (lock, { st with escrows := SDict.insert st.escrows escrow_id lock })

/-- EscrowManager.release_to_vendor (mock branch). The random release id,
release tx hash and the current time are explicit arguments.  Returns
None (the InvalidState outcome) if the escrow is unknown or not LOCKED. -/
def release_to_vendor (st : EscrowState) (escrow_id vendor_id : String)
    (vendor_wallet ach_confirmation : Option String)
    (release_id release_tx : String) (now : ℤ) :
    Option EscrowRelease × EscrowState :=
  match SDict.lookup st.escrows escrow_id with
  | none => (none, st)
  | some lock =>
    if lock.status ≠ EscrowStatus.locked then (none, st)
    else
      let release : EscrowRelease :=
        { release_id := release_id
          escrow_id := escrow_id
          invoice_id := lock.invoice_id
          vendor_id := vendor_id
          vendor_wallet := vendor_wallet
          vendor_bank_confirmed := ach_confirmation.isSome
          amount_usdc := lock.amount_usdc
          tx_hash := release_tx
          released_at := now
          ach_confirmation := ach_confirmation }
      let lock2 : EscrowLock :=
        { lock with
          status := EscrowStatus.released
          released_at := some now
          release_tx_hash := some release_tx
          release_recipient :=
            some (match vendor_wallet with
                  | some w => w
                  | none => "ACH:" ++ (ach_confirmation.getD "None")) }
      (some release,
       { st with
         escrows := SDict.insert st.escrows escrow_id lock2
         releases := st.releases ++ [release] })

/-- EscrowManager.refund_to_business (mock branch). Returns False (the
InvalidState outcome) if the escrow is unknown or not LOCKED. -/
def refund_to_business (st : EscrowState) (escrow_id reason : String)
    (now : ℤ) : Bool × EscrowState :=
  match SDict.lookup st.escrows escrow_id with
  | none => (false, st)
  | some lock =>
    if lock.status ≠ EscrowStatus.locked then (false, st)
    else
      let lock2 : EscrowLock :=
        { lock with
          status := EscrowStatus.refunded
          refund_reason := some reason
          released_at := some now }
      (true, { st with escrows := SDict.insert st.escrows escrow_id lock2 })

/-- Per-lock body of EscrowManager.expire_old_locks: a LOCKED lock past
its expiry becomes EXPIRED, every other lock is untouched. -/
def expireOne (now : ℤ) (lock : EscrowLock) : EscrowLock :=
  if lock.status = EscrowStatus.locked ∧ now > lock.expires_at then
    { lock with status := EscrowStatus.expired }
  else lock

/-- EscrowManager.expire_old_locks (mock branch): sweep every stored
lock, counting the ones that transitioned. -/
def expire_old_locks (st : EscrowState) (now : ℤ) : ℕ × EscrowState :=
  (st.escrows.countP
     (fun p => decide (p.2.status = EscrowStatus.locked ∧ now > p.2.expires_at)),
   { st with escrows := st.escrows.map (fun p => (p.1, expireOne now p.2)) })

/-! ## authorizer.py -/

/-- The mutable fields of X402Authorizer plus its policy and its
escrow manager's state. -/
structure AuthorizerState where
  policy : SpendingPolicy
  authorizations : List (String × AuthorizationResponse)
  daily_spending : List (String × ℚ)
  weekly_spending : ℚ
  auth_tokens : List (String × String)
  token_to_escrow : List (String × String)
  escrow : EscrowState
deriving DecidableEq

/-- A freshly constructed X402Authorizer with the given policy. -/
def initState (p : SpendingPolicy) : AuthorizerState :=
  { policy := p
    authorizations := []
    daily_spending := []
    weekly_spending := 0
    auth_tokens := []
    token_to_escrow := []
    escrow := { escrows := [], releases := [] } }

/-- Outcome of the external wallet's transfer_to_escrow call: success
with (tx_hash, explorer_url, escrow_address), failure with the optional
error field of the result dict, or a raised exception. -/
inductive TransferOutcome where
  | ok (tx_hash explorer_url escrow_address : String)
  | failed (err : Option String)
  | exn (msg : String)
deriving DecidableEq

/-- The ambient inputs of one authorize call: today's date string
(datetime.utcnow), the current time, the wallet-transfer outcome, and
the three random identifiers drawn inside the call. -/
structure AuthEnv where
  today : String
  now : ℤ
  transfer : TransferOutcome
  fresh_request_id : String
  fresh_token : String
  fresh_escrow_id : String
deriving DecidableEq

/-- Today's recorded spending: self._daily_spending.get(today, 0.0). -/
def spentToday (st : AuthorizerState) (today : String) : ℚ :=
  (SDict.lookup st.daily_spending today).getD 0

/-- The duplicate scan of _check_policies: any cached response with this
invoice id and status AUTHORIZED. -/
def dupExists (st : AuthorizerState) (invoice_id : String) : Bool :=
  (SDict.values st.authorizations).any
    (fun a => decide (a.invoice_id = invoice_id ∧
                      a.status = AuthorizationStatus.authorized))

/-- Result dict of _check_policies: allowed flag, reason, per-check map
(in insertion order). -/
structure PolicyResult where
  allowed : Bool
  reason : PolicyReason
  checks : List PolicyCheck
deriving DecidableEq

/-- X402Authorizer._check_policies: per-transaction max, then daily
limit, then budget, then duplicate detection, short-circuiting on the
first failing check. -/
def check_policies (st : AuthorizerState) (invoice : Invoice)
    (request : AuthorizationRequest) (today : String) : PolicyResult :=
  let amount := invoice.amount_usd
  let c1 := PolicyCheck.per_transaction st.policy.per_transaction_max amount
              (decide (amount ≤ st.policy.per_transaction_max))
  if ¬ (amount ≤ st.policy.per_transaction_max) then
    { allowed := false
      reason := PolicyReason.per_transaction_exceeded amount st.policy.per_transaction_max
      checks := [c1] }
  else
    let today_spent := spentToday st today
    let c2 := PolicyCheck.daily_limit st.policy.daily_limit today_spent
                (today_spent + amount)
                (decide (today_spent + amount ≤ st.policy.daily_limit))
    if ¬ (today_spent + amount ≤ st.policy.daily_limit) then
      { allowed := false
        reason := PolicyReason.daily_limit_exceeded (today_spent + amount) st.policy.daily_limit
        checks := [c1, c2] }
    else
      let c3 := PolicyCheck.budget request.budget_total request.budget_remaining amount
                  (decide (amount ≤ request.budget_remaining))
      if ¬ (amount ≤ request.budget_remaining) then
        { allowed := false
          reason := PolicyReason.budget_exceeded amount request.budget_remaining
          checks := [c1, c2, c3] }
      else
        let dup := dupExists st invoice.invoice_id
        let c4 := PolicyCheck.duplicate invoice.invoice_id (! dup)
        if dup then
          { allowed := false
            reason := PolicyReason.duplicate_auth invoice.invoice_id
            checks := [c1, c2, c3, c4] }
        else
          { allowed := true
            reason := PolicyReason.all_passed
            checks := [c1, c2, c3, c4] }

/-- X402Authorizer._record_spending. -/
def record_spending (st : AuthorizerState) (amount : ℚ) (today : String) :
    AuthorizerState :=
  { st with
    daily_spending := SDict.insert st.daily_spending today (spentToday st today + amount)
    weekly_spending := st.weekly_spending + amount }

/-- X402Authorizer.authorize: policy checks, wallet transfer, escrow
lock, token minting, spend recording, response caching. -/
def authorize (st : AuthorizerState) (request : AuthorizationRequest)
    (env : AuthEnv) : AuthorizationResponse × AuthorizerState :=
  let invoice := request.invoice
  let request_id := request.request_id.getD env.fresh_request_id
  let policy_result := check_policies st invoice request env.today
  if ¬ policy_result.allowed then
    ({ request_id := request_id
       invoice_id := invoice.invoice_id
       status := AuthorizationStatus.rejected
       error := some (AuthError.policy policy_result.reason)
       policy_checks := policy_result.checks }, st)
  else
    match env.transfer with
    | TransferOutcome.exn msg =>
      ({ request_id := request_id
         invoice_id := invoice.invoice_id
         status := AuthorizationStatus.rejected
         error := some (AuthError.exception msg)
         policy_checks := policy_result.checks }, st)
    | TransferOutcome.failed err =>
      ({ request_id := request_id
         invoice_id := invoice.invoice_id
         status := AuthorizationStatus.rejected
         error := some (AuthError.wallet (err.getD "Transfer failed"))
         policy_checks := policy_result.checks }, st)
    | TransferOutcome.ok txh exu addr =>
      let lockAndEscrow :=
        create_lock st.escrow invoice.invoice_id
          (request.request_id.getD "default_business") invoice.amount_usd
          "pending" txh invoice.vendor_id 72 env.fresh_escrow_id env.now
      let st1 := { st with escrow := lockAndEscrow.2 }
      let auth_token := env.fresh_token
      let st2 := { st1 with
        auth_tokens := SDict.insert st1.auth_tokens auth_token invoice.invoice_id }
      let st3 := { st2 with
        token_to_escrow := SDict.insert st2.token_to_escrow auth_token lockAndEscrow.1.escrow_id }
      let st4 := record_spending st3 invoice.amount_usd env.today
      let response : AuthorizationResponse :=
        { request_id := request_id
          invoice_id := invoice.invoice_id
          status := AuthorizationStatus.authorized
          auth_token := some auth_token
          tx_hash := some txh
          explorer_url := some exu
          amount_authorized := some invoice.amount_usd
          escrow_address := some addr
          policy_checks := policy_result.checks }
      let st5 := { st4 with
        authorizations := SDict.insert st4.authorizations request_id response }
      (response, st5)

/-- X402Authorizer.verify_auth_token. -/
def verify_auth_token (st : AuthorizerState) (token invoice_id : String) : Bool :=
  decide (SDict.lookup st.auth_tokens token = some invoice_id)

/-- X402Authorizer.consume_auth_token: dict.pop(token, None). -/
def consume_auth_token (st : AuthorizerState) (token : String) :
    Option String × AuthorizerState :=
  (SDict.lookup st.auth_tokens token,
   { st with auth_tokens := SDict.erase st.auth_tokens token })

/-- Run a list of authorize calls, pairing each call with its response
(the trace of one authorizer instance). -/
def runAuth (st : AuthorizerState) :
    List (AuthorizationRequest × AuthEnv) →
    List ((AuthorizationRequest × AuthEnv) × AuthorizationResponse) × AuthorizerState
  | [] => ([], st)
  | c :: cs =>
    let r := authorize st c.1 c.2
    let rest := runAuth r.2 cs
    ((c, r.1) :: rest.1, rest.2)

/-- Run a list of consume_auth_token calls, collecting their results. -/
def consume_run (st : AuthorizerState) :
    List String → List (Option String) × AuthorizerState
  | [] => ([], st)
  | t :: ts =>
    let r := consume_auth_token st t
    let rest := consume_run r.2 ts
    (r.1 :: rest.1, rest.2)

/-- Sum of amount_authorized over the AUTHORIZED responses of a trace
whose call used the given date. -/
def daySum (prs : List ((AuthorizationRequest × AuthEnv) × AuthorizationResponse))
    (d : String) : ℚ :=
  ((prs.filter (fun pr => decide (pr.1.2.today = d ∧
      pr.2.status = AuthorizationStatus.authorized))).map
    (fun pr => pr.2.amount_authorized.getD 0)).sum

/-- Sum of amount_authorized over all AUTHORIZED responses of a trace. -/
def totalAuthorizedSum
    (prs : List ((AuthorizationRequest × AuthEnv) × AuthorizationResponse)) : ℚ :=
  ((prs.filter (fun pr => decide (pr.2.status = AuthorizationStatus.authorized))).map
    (fun pr => pr.2.amount_authorized.getD 0)).sum

/-! ## credential_vault.py -/

/-- Python s[-4:] — the last four characters (the whole string when it
is shorter). -/
def last4 (s : String) : String :=
  String.mk (s.data.drop (s.data.length - 4))

/-- The mock-mode in-memory credential record
(CredentialVault._mock_credentials values). -/
structure MockCred where
  credential_id : String
  routing_last4 : String
  account_last4 : String
  account_name : String
  bank_name : Option String
  created_at : String
deriving DecidableEq

/-- The MongoDB credential document written by store_credentials
(non-mock mode). -/
structure CredDoc where
  business_id : String
  credential_id : String
  routing_encrypted : String
  account_encrypted : String
  name_encrypted : String
  routing_last4 : String
  account_last4 : String
  bank_name : Option String
  created_at : String
deriving DecidableEq

/-- One entry of the credential_access_log collection. -/
structure AccessLogEntry where
  business_id : String
  action : String
  details : String
  timestamp : String
deriving DecidableEq

/-- CredentialVault state: the mock in-memory store, the credentials
collection (keyed by business_id) and the audit-log collection. -/
structure VaultState where
  mock_mode : Bool
  mock_credentials : List (String × MockCred)
  db_credentials : List (String × CredDoc)
  access_log : List AccessLogEntry
deriving DecidableEq

/-- The ACH_ROUTING_NUMBER / ACH_ACCOUNT_NUMBER / ACH_ACCOUNT_NAME
environment defaults used by the mock injection branch. -/
structure AchEnv where
  routing : String
  account : String
  name : String
deriving DecidableEq

/-- CredentialVault._log_access: appends one audit record in database
mode; in mock mode it only writes a console line and stores nothing. -/
def log_access (st : VaultState) (business_id action details timestamp : String) :
    VaultState :=
  if st.mock_mode then st
  else
    { st with access_log := st.access_log ++
        [{ business_id := business_id, action := action,
           details := details, timestamp := timestamp }] }

/-- CredentialVault.store_credentials. The random credential id, the
current time and the Fernet encryption function are explicit arguments.
The mock branch stores only the last-4 digits and names and returns
before any audit logging; the database branch encrypts the three
sensitive fields and logs a "store" record. -/
def store_credentials (st : VaultState) (enc : String → String)
    (business_id routing_number account_number account_name : String)
    (bank_name : Option String) (credential_id now : String) :
    (String × String) × VaultState :=
  if st.mock_mode then
    ((("stored" : String), credential_id),
     { st with mock_credentials := (SDict.insert st.mock_credentials business_id
         { credential_id := credential_id
           routing_last4 := last4 routing_number
           account_last4 := last4 account_number
           account_name := account_name
           bank_name := bank_name
           created_at := now }) })
  else
    let doc : CredDoc :=
      { business_id := business_id
        credential_id := credential_id
        routing_encrypted := enc routing_number
        account_encrypted := enc account_number
        name_encrypted := enc account_name
        routing_last4 := last4 routing_number
        account_last4 := last4 account_number
        bank_name := bank_name
        created_at := now }
    let st1 := { st with db_credentials := SDict.insert st.db_credentials business_id doc }
    (("stored", credential_id),
     log_access st1 business_id "store" "Credentials stored" now)

/-- The masked view returned by get_credential_info, as the key/value
pairs of the returned dict in construction order. -/
def get_credential_info (st : VaultState) (business_id : String) :
    Option (List (String × Option String)) :=
  if st.mock_mode then
    (SDict.lookup st.mock_credentials business_id).map (fun stored =>
      [("credential_id", some stored.credential_id),
       ("routing_last4", some stored.routing_last4),
       ("account_last4", some stored.account_last4),
       ("account_name", some stored.account_name),
       ("bank_name", stored.bank_name)])
  else
    (SDict.lookup st.db_credentials business_id).map (fun doc =>
      [("credential_id", some doc.credential_id),
       ("routing_last4", some doc.routing_last4),
       ("account_last4", some doc.account_last4),
       ("bank_name", doc.bank_name),
       ("created_at", some doc.created_at)])

/-- CredentialVault.get_credentials_for_injection. The authorizer state
backs _verify_authorization (verify_auth_token of the global
authorizer); `dec` is Fernet decryption, `none` standing for a raised
decryption exception; `ach` holds the environment-variable defaults of
the mock branch. Returns the decrypted (routing, account, name) triple
and the updated vault state. -/
def get_credentials_for_injection (st : VaultState) (auth : AuthorizerState)
    (ach : AchEnv) (dec : String → Option String)
    (business_id auth_token invoice_id now : String) :
    Option (String × String × String) × VaultState :=
  if ¬ verify_auth_token auth auth_token invoice_id then
    (none, log_access st business_id "denied"
             ("Invalid auth token for " ++ invoice_id) now)
  else if st.mock_mode then
    match SDict.lookup st.mock_credentials business_id with
    | none => (some (ach.routing, ach.account, ach.name), st)
    | some stored => (some (ach.routing, ach.account, stored.account_name), st)
  else
    match SDict.lookup st.db_credentials business_id with
    | none => (none, st)
    | some doc =>
      match dec doc.routing_encrypted, dec doc.account_encrypted,
            dec doc.name_encrypted with
      | some routing, some account, some name =>
        (some (routing, account, name),
         log_access st business_id "decrypt"
           ("Credentials decrypted for " ++ invoice_id) now)
      | _, _, _ => (none, st)

/-! ## Dictionary lemmas -/

theorem SDict.lookup_insert_self {α : Type} (l : List (String × α)) (k : String) (v : α) :
    SDict.lookup (SDict.insert l k v) k = some v := by
  induction l with
  | nil => simp [SDict.insert, SDict.lookup]
  | cons p ps ih =>
    by_cases h : p.1 = k
    · simp [SDict.insert, h, SDict.lookup]
    · simp [SDict.insert, h, SDict.lookup, ih]

theorem SDict.lookup_insert_ne {α : Type} (l : List (String × α)) (k k' : String) (v : α)
    (h : k' ≠ k) : SDict.lookup (SDict.insert l k v) k' = SDict.lookup l k' := by
  have hk : ¬ (k = k') := fun h' => h h'.symm
  induction l with
  | nil => simp [SDict.insert, SDict.lookup, hk]
  | cons p ps ih =>
    by_cases hp : p.1 = k
    · have hpk : ¬ (p.1 = k') := by rw [hp]; exact hk
      simp [SDict.insert, hp, SDict.lookup, hk, hpk]
    · simp only [SDict.insert, hp, if_false, SDict.lookup]
      by_cases hq : p.1 = k'
      · simp [hq]
      · simp [hq, ih]

theorem SDict.lookup_erase_self {α : Type} (l : List (String × α)) (k : String) :
    SDict.lookup (SDict.erase l k) k = none := by
  induction l with
  | nil => simp [SDict.erase, SDict.lookup]
  | cons p ps ih =>
    by_cases h : p.1 = k
    · simpa [SDict.erase, h] using ih
    · simpa [SDict.erase, h, SDict.lookup] using ih

theorem SDict.lookup_erase_ne {α : Type} (l : List (String × α)) (k k' : String)
    (h : k' ≠ k) : SDict.lookup (SDict.erase l k) k' = SDict.lookup l k' := by
  induction l with
  | nil => simp [SDict.erase, SDict.lookup]
  | cons p ps ih =>
    by_cases hp : p.1 = k
    · have hpk : ¬ (p.1 = k') := by
        rw [hp]; exact fun h' => h h'.symm
      rw [show SDict.erase (p :: ps) k = SDict.erase ps k by simp [SDict.erase, hp]]
      rw [ih]
      simp [SDict.lookup, hpk]
    · rw [show SDict.erase (p :: ps) k = p :: SDict.erase ps k by simp [SDict.erase, hp]]
      by_cases hq : p.1 = k'
      · simp [SDict.lookup, hq]
      · simp [SDict.lookup, hq, ih]

theorem SDict.lookup_mapval {α β : Type} (l : List (String × α)) (f : α → β) (k : String) :
    SDict.lookup (l.map (fun p => (p.1, f p.2))) k = (SDict.lookup l k).map f := by
  induction l with
  | nil => simp [SDict.lookup]
  | cons p ps ih =>
    by_cases h : p.1 = k
    · simp [SDict.lookup, h]
    · simp [SDict.lookup, h, ih]

/-! ## C1: single-use auth tokens -/

theorem consume_run_append (st : AuthorizerState) (l1 l2 : List String) :
    consume_run st (l1 ++ l2) =
      ((consume_run st l1).1 ++ (consume_run (consume_run st l1).2 l2).1,
       (consume_run (consume_run st l1).2 l2).2) := by
  induction l1 generalizing st with
  | nil => simp [consume_run]
  | cons t ts ih => simp [consume_run, ih]

theorem consume_auth_token_state (st : AuthorizerState) (t : String) :
    (consume_auth_token st t).2 =
      { st with auth_tokens := SDict.erase st.auth_tokens t } := rfl

theorem consume_run_lookup (st : AuthorizerState) (ts : List String) (t : String) :
    SDict.lookup ((consume_run st ts).2).auth_tokens t =
      if t ∈ ts then none else SDict.lookup st.auth_tokens t := by
  induction ts generalizing st with
  | nil => simp [consume_run]
  | cons u us ih =>
    by_cases h : t = u
    · subst h
      simp only [consume_run, ih, List.mem_cons, true_or, if_true]
      by_cases hm : t ∈ us
      · simp [hm]
      · simp [hm, consume_auth_token, SDict.lookup_erase_self]
    · simp only [consume_run, ih, List.mem_cons, h, false_or]
      by_cases hm : t ∈ us
      · simp [hm]
      · simp [hm, consume_auth_token, SDict.lookup_erase_ne _ _ _ h]

/-- C1: in any sequence of consume_auth_token calls, the call on token T
at position |pre| returns the invoice id T was bound to exactly when T
was not consumed earlier in the sequence (and in particular returns none
when T was never minted, i.e. is absent from the live token map), and
after that call T is removed from the live set, so every later
consume_auth_token(T) returns none. -/
theorem consume_token_single_use (st : AuthorizerState) (pre post : List String)
    (t : String) :
    ∃ rs, (consume_run st (pre ++ t :: post)).1 =
        (consume_run st pre).1 ++
          (if t ∈ pre then none else SDict.lookup st.auth_tokens t) :: rs ∧
      SDict.lookup ((consume_run st (pre ++ [t])).2).auth_tokens t = none := by
  refine ⟨(consume_run (consume_auth_token (consume_run st pre).2 t).2 post).1, ?_, ?_⟩
  · rw [consume_run_append]
    simp only [consume_run]
    rw [consume_auth_token]
    rw [consume_run_lookup]
  · rw [consume_run_lookup]
    simp

/-! ## Shape lemmas for check_policies and authorize -/

theorem check_policies_allowed (st : AuthorizerState) (inv : Invoice)
    (req : AuthorizationRequest) (today : String)
    (h : (check_policies st inv req today).allowed = true) :
    inv.amount_usd ≤ st.policy.per_transaction_max ∧
    spentToday st today + inv.amount_usd ≤ st.policy.daily_limit ∧
    inv.amount_usd ≤ req.budget_remaining ∧
    dupExists st inv.invoice_id = false := by
  unfold check_policies at h
  simp only [] at h
  split_ifs at h with h1 h2 h3 h4
  · exact ⟨h1, h2, h3, by simpa using h4⟩

theorem authorize_success_spec (st : AuthorizerState) (req : AuthorizationRequest)
    (env : AuthEnv)
    (h : (authorize st req env).1.status = AuthorizationStatus.authorized) :
    ∃ txh exu addr,
      env.transfer = TransferOutcome.ok txh exu addr ∧
      (check_policies st req.invoice req env.today).allowed = true ∧
      (authorize st req env).1 =
        { request_id := req.request_id.getD env.fresh_request_id
          invoice_id := req.invoice.invoice_id
          status := AuthorizationStatus.authorized
          auth_token := some env.fresh_token
          tx_hash := some txh
          explorer_url := some exu
          amount_authorized := some req.invoice.amount_usd
          escrow_address := some addr
          error := none
          policy_checks := (check_policies st req.invoice req env.today).checks } ∧
      (authorize st req env).2 =
        { st with
          escrow := (create_lock st.escrow req.invoice.invoice_id
              (req.request_id.getD "default_business") req.invoice.amount_usd
              "pending" txh req.invoice.vendor_id 72 env.fresh_escrow_id env.now).2
          auth_tokens := SDict.insert st.auth_tokens env.fresh_token req.invoice.invoice_id
          token_to_escrow := SDict.insert st.token_to_escrow env.fresh_token
            (create_lock st.escrow req.invoice.invoice_id
              (req.request_id.getD "default_business") req.invoice.amount_usd
              "pending" txh req.invoice.vendor_id 72 env.fresh_escrow_id env.now).1.escrow_id
          daily_spending := SDict.insert st.daily_spending env.today
            (spentToday st env.today + req.invoice.amount_usd)
          weekly_spending := st.weekly_spending + req.invoice.amount_usd
          authorizations := SDict.insert st.authorizations
            (req.request_id.getD env.fresh_request_id) (authorize st req env).1 } := by
  by_cases hp : ¬ (check_policies st req.invoice req env.today).allowed
  · exfalso
    unfold authorize at h
    simp [hp] at h
  · cases ht : env.transfer with
    | ok txh exu addr =>
      refine ⟨txh, exu, addr, rfl, by simpa using hp, ?_, ?_⟩
      · unfold authorize
        simp [hp, ht]
      · unfold authorize
        simp only [hp, ht]
        simp [record_spending, spentToday]
    | failed e =>
      exfalso
      unfold authorize at h
      simp [hp, ht] at h
    | exn m =>
      exfalso
      unfold authorize at h
      simp [hp, ht] at h

theorem authorize_rejected_state_eq (st : AuthorizerState)
    (req : AuthorizationRequest) (env : AuthEnv)
    (h : (authorize st req env).1.status = AuthorizationStatus.rejected) :
    (authorize st req env).2 = st := by
  by_cases hp : ¬ (check_policies st req.invoice req env.today).allowed
  · unfold authorize
    simp [hp]
  · cases ht : env.transfer with
    | ok txh exu addr =>
      exfalso
      unfold authorize at h
      simp [hp, ht] at h
    | failed e =>
      unfold authorize
      simp [hp, ht]
    | exn m =>
      unfold authorize
      simp [hp, ht]

theorem authorize_status_cases (st : AuthorizerState) (req : AuthorizationRequest)
    (env : AuthEnv) :
    (authorize st req env).1.status = AuthorizationStatus.authorized ∨
    (authorize st req env).1.status = AuthorizationStatus.rejected := by
  by_cases hp : ¬ (check_policies st req.invoice req env.today).allowed
  · right
    unfold authorize
    simp [hp]
  · cases ht : env.transfer with
    | ok txh exu addr =>
      left
      unfold authorize
      simp [hp, ht]
    | failed e =>
      right
      unfold authorize
      simp [hp, ht]
    | exn m =>
      right
      unfold authorize
      simp [hp, ht]

theorem authorize_policy_preserved (st : AuthorizerState) (req : AuthorizationRequest)
    (env : AuthEnv) : (authorize st req env).2.policy = st.policy := by
  rcases authorize_status_cases st req env with h | h
  · obtain ⟨txh, exu, addr, _, _, _, hst⟩ := authorize_success_spec st req env h
    rw [hst]
  · rw [authorize_rejected_state_eq st req env h]

/-! ## Concrete fixtures for witnesses and counterexamples -/

/-- An invoice with the given id and amount. -/
def invA (id : String) (amt : ℚ) : Invoice :=
  { invoice_id := id, vendor_name := "Acme", amount_usd := amt }

/-- A request for that invoice with an ample budget. -/
def reqOf (id : String) (amt : ℚ) : AuthorizationRequest :=
  { invoice := invA id amt, budget_total := 100000, budget_remaining := 100000 }

/-- A call environment whose wallet transfer succeeds; the three random
identifiers all take the given tag. -/
def envOf (day tag : String) : AuthEnv :=
  { today := day, now := 0,
    transfer := TransferOutcome.ok "tx" "url" "0xE",
    fresh_request_id := tag, fresh_token := tag, fresh_escrow_id := tag }

/-- C3: whenever authorize returns REJECTED — because a policy check
failed, the wallet transfer reported failure, or the wallet transfer
raised an exception — the authorizer state is unchanged: no auth token
is minted, nothing is added to the daily or weekly spending
accumulators, no escrow lock is created, and no response is cached for
the request id. -/
theorem authorize_rejected_no_side_effects (st : AuthorizerState)
    (req : AuthorizationRequest) (env : AuthEnv)
    (h : (authorize st req env).1.status = AuthorizationStatus.rejected) :
    (authorize st req env).2 = st :=
  authorize_rejected_state_eq st req env h

/-- C3 witness: a concrete rejected call (amount 600 over the default
per-transaction limit 500) leaves the fresh authorizer state unchanged. -/
theorem authorize_rejected_no_side_effects_witness :
    (authorize (initState {}) (reqOf "I1" 600) (envOf "d1" "a1")).1.status =
      AuthorizationStatus.rejected ∧
    (authorize (initState {}) (reqOf "I1" 600) (envOf "d1" "a1")).2 = initState {} := by
  have hs : (authorize (initState {}) (reqOf "I1" 600) (envOf "d1" "a1")).1.status =
      AuthorizationStatus.rejected := by
    norm_num [authorize, check_policies, spentToday, dupExists, SDict.lookup,
      SDict.values, initState, invA, reqOf, envOf]
  exact ⟨hs, authorize_rejected_no_side_effects _ _ _ hs⟩

/-! ## C2: budget monotonicity -/

theorem daySum_cons (x : (AuthorizationRequest × AuthEnv) × AuthorizationResponse)
    (xs : List ((AuthorizationRequest × AuthEnv) × AuthorizationResponse)) (d : String) :
    daySum (x :: xs) d =
      if x.1.2.today = d ∧ x.2.status = AuthorizationStatus.authorized then
        x.2.amount_authorized.getD 0 + daySum xs d
      else daySum xs d := by
  by_cases h : x.1.2.today = d ∧ x.2.status = AuthorizationStatus.authorized
  · simp [daySum, List.filter_cons, h]
  · simp [daySum, List.filter_cons, h]

theorem runAuth_daySum_bound (P : SpendingPolicy) (d : String)
    (calls : List (AuthorizationRequest × AuthEnv)) :
    ∀ (st : AuthorizerState), st.policy = P →
      spentToday st d + daySum (runAuth st calls).1 d ≤
        max (spentToday st d) P.daily_limit := by
  induction calls with
  | nil =>
    intro st hP
    simp [runAuth, daySum]
  | cons c cs ih =>
    intro st hP
    obtain ⟨req, env⟩ := c
    have hrun : (runAuth st ((req, env) :: cs)).1 =
        ((req, env), (authorize st req env).1) ::
          (runAuth (authorize st req env).2 cs).1 := rfl
    rw [hrun, daySum_cons]
    rcases authorize_status_cases st req env with hA | hR
    · obtain ⟨txh, exu, addr, ht, hal, hresp, hst⟩ := authorize_success_spec st req env hA
      have hchecks := check_policies_allowed st req.invoice req env.today hal
      have hdaily : spentToday st env.today + req.invoice.amount_usd ≤ P.daily_limit := by
        rw [← hP]
        exact hchecks.2.1
      have hpol2 : (authorize st req env).2.policy = P := by
        rw [authorize_policy_preserved]
        exact hP
      have hIH := ih (authorize st req env).2 hpol2
      have hamt : (authorize st req env).1.amount_authorized.getD 0 =
          req.invoice.amount_usd := by
        simp [hresp]
      by_cases hd : env.today = d
      · subst hd
        have hspent2 : spentToday (authorize st req env).2 env.today =
            spentToday st env.today + req.invoice.amount_usd := by
          rw [hst]
          simp [spentToday, SDict.lookup_insert_self]
        rw [if_pos ⟨rfl, hA⟩, hamt]
        have hmax : max (spentToday st env.today + req.invoice.amount_usd)
            P.daily_limit = P.daily_limit := max_eq_right hdaily
        rw [hspent2, hmax] at hIH
        have hlin : spentToday st env.today +
            (req.invoice.amount_usd + daySum (runAuth (authorize st req env).2 cs).1 env.today) ≤
            P.daily_limit := by linarith
        exact le_trans hlin (le_max_right _ _)
      · rw [if_neg (fun hc => hd hc.1)]
        have hspent2 : spentToday (authorize st req env).2 d = spentToday st d := by
          rw [hst]
          simp only [spentToday]
          rw [SDict.lookup_insert_ne _ _ _ _ (fun he => hd he.symm)]
        rw [hspent2] at hIH
        exact hIH
    · have hsteq : (authorize st req env).2 = st := authorize_rejected_state_eq st req env hR
      rw [if_neg ?_, hsteq]
      · exact ih st hP
      · rintro ⟨-, hcontra⟩
        rw [hR] at hcontra
        exact absurd hcontra (by decide)

theorem runAuth_each_authorized (calls : List (AuthorizationRequest × AuthEnv)) :
    ∀ st : AuthorizerState, ∀ pr ∈ (runAuth st calls).1,
      pr.2.status = AuthorizationStatus.authorized →
      pr.2.amount_authorized = some pr.1.1.invoice.amount_usd ∧
      pr.1.1.invoice.amount_usd ≤ pr.1.1.budget_remaining := by
  induction calls with
  | nil =>
    intro st pr h
    simp [runAuth] at h
  | cons c cs ih =>
    intro st pr hmem hauth
    obtain ⟨req, env⟩ := c
    rw [show (runAuth st ((req, env) :: cs)).1 =
        ((req, env), (authorize st req env).1) ::
          (runAuth (authorize st req env).2 cs).1 from rfl] at hmem
    rcases List.mem_cons.mp hmem with heq | htail
    · subst heq
      obtain ⟨txh, exu, addr, ht, hal, hresp, hst⟩ :=
        authorize_success_spec st req env hauth
      have hchecks := check_policies_allowed st req.invoice req env.today hal
      exact ⟨by rw [hresp], hchecks.2.2.1⟩
    · exact ih (authorize st req env).2 pr htail hauth

/-- C2 (amended): over any trace of authorize calls against a fresh
authorizer whose policy has a nonnegative daily limit, the sum of
amount_authorized over AUTHORIZED responses within any one day never
exceeds the daily limit, and each authorized amount equals its invoice
amount and never exceeds the budget_remaining supplied in its own
request. The weekly-limit clause of the claim is dropped:
_check_policies never tests the weekly limit (it only accumulates
_weekly_spending), so the authorized total can pass it. -/
theorem budget_monotonicity_daily_and_request (P : SpendingPolicy)
    (hP : 0 ≤ P.daily_limit) (calls : List (AuthorizationRequest × AuthEnv)) :
    (∀ d, daySum (runAuth (initState P) calls).1 d ≤ P.daily_limit) ∧
    (∀ pr ∈ (runAuth (initState P) calls).1,
      pr.2.status = AuthorizationStatus.authorized →
      pr.2.amount_authorized = some pr.1.1.invoice.amount_usd ∧
      pr.1.1.invoice.amount_usd ≤ pr.1.1.budget_remaining) := by
  constructor
  · intro d
    have h := runAuth_daySum_bound P d calls (initState P) rfl
    have h0 : spentToday (initState P) d = 0 := rfl
    rw [h0] at h
    simpa [max_eq_right hP] using h
  · exact runAuth_each_authorized calls (initState P)

/-- C2 witness: a one-call trace under the default policy stays within
the daily limit. -/
theorem budget_monotonicity_daily_and_request_witness :
    daySum (runAuth (initState {}) [(reqOf "I1" 300, envOf "d1" "a1")]).1 "d1" ≤
      ({} : SpendingPolicy).daily_limit :=
  (budget_monotonicity_daily_and_request {} (by norm_num) _).1 "d1"

/-- C2 counterexample: with policy per_transaction_max = 2000,
daily_limit = 2000, weekly_limit = 3000, two authorized calls of 2000
on consecutive days of one week total 4000, exceeding the weekly limit
3000 — no weekly check exists in _check_policies. -/
theorem weekly_limit_never_enforced :
    totalAuthorizedSum (runAuth
      (initState { per_transaction_max := 2000, daily_limit := 2000, weekly_limit := 3000 })
      [(reqOf "I1" 2000, envOf "2026-01-05" "a1"),
       (reqOf "I2" 2000, envOf "2026-01-06" "a2")]).1 = 4000 ∧
    (runAuth
      (initState { per_transaction_max := 2000, daily_limit := 2000, weekly_limit := 3000 })
      [(reqOf "I1" 2000, envOf "2026-01-05" "a1"),
       (reqOf "I2" 2000, envOf "2026-01-06" "a2")]).1.map (fun pr => pr.2.status) =
      [AuthorizationStatus.authorized, AuthorizationStatus.authorized] ∧
    (runAuth
      (initState { per_transaction_max := 2000, daily_limit := 2000, weekly_limit := 3000 })
      [(reqOf "I1" 2000, envOf "2026-01-05" "a1"),
       (reqOf "I2" 2000, envOf "2026-01-06" "a2")]).2.weekly_spending = 4000 ∧
    ({ per_transaction_max := 2000, daily_limit := 2000, weekly_limit := 3000 } :
      SpendingPolicy).weekly_limit < 4000 := by
  have h12 : ¬ ("I1" = "I2") := by decide
  have h21 : ¬ ("I2" = "I1") := by decide
  have hd : ¬ ("2026-01-05" = "2026-01-06") := by decide
  have hd2 : ¬ ("2026-01-06" = "2026-01-05") := by decide
  have ha : ¬ ("a2" = "a1") := by decide
  refine ⟨?_, ?_, ?_, by norm_num⟩ <;>
    norm_num [runAuth, authorize, check_policies, spentToday, dupExists,
      SDict.lookup, SDict.insert, SDict.values, initState, invA, reqOf, envOf,
      record_spending, create_lock, totalAuthorizedSum, h12, h21, hd, hd2, ha]

/-! ## C8: inclusive daily-limit boundary -/

/-- C8: the daily-limit check is inclusive: an amount bringing today's
recorded spend to exactly policy.daily_limit passes the daily check,
and one bringing it strictly above fails with the would-exceed-daily-
limit reason. Concretely, with per_transaction_max = 500 and
daily_limit = 1000, amounts 300 then 400 are authorized and a third 400
is rejected with the daily-limit reason (1100 over 1000); amounts 500
then 500 (recorded spend exactly 1000) are both authorized. -/
theorem daily_limit_boundary :
    (∀ st inv req today, inv.amount_usd ≤ st.policy.per_transaction_max →
      (spentToday st today + inv.amount_usd ≤ st.policy.daily_limit →
        PolicyCheck.daily_limit st.policy.daily_limit (spentToday st today)
          (spentToday st today + inv.amount_usd) true ∈
          (check_policies st inv req today).checks) ∧
      (st.policy.daily_limit < spentToday st today + inv.amount_usd →
        (check_policies st inv req today).allowed = false ∧
        (check_policies st inv req today).reason =
          PolicyReason.daily_limit_exceeded
            (spentToday st today + inv.amount_usd) st.policy.daily_limit)) ∧
    ((runAuth (initState { per_transaction_max := 500, daily_limit := 1000 })
        [(reqOf "I1" 300, envOf "d1" "a1"), (reqOf "I2" 400, envOf "d1" "a2"),
         (reqOf "I3" 400, envOf "d1" "a3")]).1.map (fun pr => pr.2.status) =
      [AuthorizationStatus.authorized, AuthorizationStatus.authorized,
       AuthorizationStatus.rejected] ∧
     (runAuth (initState { per_transaction_max := 500, daily_limit := 1000 })
        [(reqOf "I1" 300, envOf "d1" "a1"), (reqOf "I2" 400, envOf "d1" "a2"),
         (reqOf "I3" 400, envOf "d1" "a3")]).1.map (fun pr => pr.2.error) =
      [none, none,
       some (AuthError.policy (PolicyReason.daily_limit_exceeded 1100 1000))]) ∧
    ((runAuth (initState { per_transaction_max := 500, daily_limit := 1000 })
        [(reqOf "I4" 500, envOf "d1" "b1"), (reqOf "I5" 500, envOf "d1" "b2")]).1.map
        (fun pr => pr.2.status) =
      [AuthorizationStatus.authorized, AuthorizationStatus.authorized] ∧
     spentToday (runAuth (initState { per_transaction_max := 500, daily_limit := 1000 })
        [(reqOf "I4" 500, envOf "d1" "b1"), (reqOf "I5" 500, envOf "d1" "b2")]).2 "d1" =
       1000) := by
  refine ⟨?_, ?_, ?_⟩
  · intro st inv req today h1
    constructor
    · intro h2
      simp only [check_policies]
      rw [if_neg (not_not_intro h1), if_neg (not_not_intro h2)]
      split_ifs <;> simp [decide_eq_true h2]
    · intro h2'
      have hnot : ¬ (spentToday st today + inv.amount_usd ≤ st.policy.daily_limit) :=
        not_le.mpr h2'
      simp only [check_policies]
      rw [if_neg (not_not_intro h1), if_pos hnot]
      exact ⟨rfl, rfl⟩
  · have h12 : ¬ ("I1" = "I2") := by decide
    have h13 : ¬ ("I1" = "I3") := by decide
    have h23 : ¬ ("I2" = "I3") := by decide
    have h21 : ¬ ("I2" = "I1") := by decide
    have h31 : ¬ ("I3" = "I1") := by decide
    have h32 : ¬ ("I3" = "I2") := by decide
    have ha21 : ¬ ("a2" = "a1") := by decide
    have ha31 : ¬ ("a3" = "a1") := by decide
    have ha32 : ¬ ("a3" = "a2") := by decide
    constructor <;>
      norm_num [runAuth, authorize, check_policies, spentToday, dupExists,
        SDict.lookup, SDict.insert, SDict.values, initState, invA, reqOf, envOf,
        record_spending, create_lock, h12, h13, h23, h21, h31, h32, ha21, ha31, ha32]
  · have h45 : ¬ ("I4" = "I5") := by decide
    have h54 : ¬ ("I5" = "I4") := by decide
    have hb21 : ¬ ("b2" = "b1") := by decide
    constructor <;>
      norm_num [runAuth, authorize, check_policies, spentToday, dupExists,
        SDict.lookup, SDict.insert, SDict.values, initState, invA, reqOf, envOf,
        record_spending, create_lock, h45, h54, hb21]

/-- C8 witness: instantiating the boundary statement at a fresh default
authorizer: the daily check for a first 300-dollar invoice appears in
the check map as passed with new total 300 against limit 2000. -/
theorem daily_limit_boundary_witness :
    PolicyCheck.daily_limit 2000 0 (0 + 300) true ∈
      (check_policies (initState {}) (invA "I8" 300) (reqOf "I8" 300) "d8").checks := by
  have h := (daily_limit_boundary.1 (initState {}) (invA "I8" 300) (reqOf "I8" 300) "d8"
    (by norm_num [invA, initState])).1
    (by norm_num [spentToday, SDict.lookup, invA, initState])
  simpa [spentToday, SDict.lookup, initState, invA] using h

/-! ## C9: fixed check order with short-circuiting -/

/-- The identity of a policy check (which of the four checks it is). -/
inductive CheckKind where
  | per_transaction
  | daily_limit
  | budget
  | duplicate
deriving DecidableEq

/-- Which check a checks-map entry records. -/
def kindOf : PolicyCheck → CheckKind
  | PolicyCheck.per_transaction _ _ _ => CheckKind.per_transaction
  | PolicyCheck.daily_limit _ _ _ _ => CheckKind.daily_limit
  | PolicyCheck.budget _ _ _ _ => CheckKind.budget
  | PolicyCheck.duplicate _ _ => CheckKind.duplicate

/-- The `passed` field of a checks-map entry. -/
def checkPassed : PolicyCheck → Bool
  | PolicyCheck.per_transaction _ _ b => b
  | PolicyCheck.daily_limit _ _ _ b => b
  | PolicyCheck.budget _ _ _ b => b
  | PolicyCheck.duplicate _ b => b

/-- Which check a rejection reason names (none for the all-passed
reason). -/
def reasonKind : PolicyReason → Option CheckKind
  | PolicyReason.all_passed => none
  | PolicyReason.per_transaction_exceeded _ _ => some CheckKind.per_transaction
  | PolicyReason.daily_limit_exceeded _ _ => some CheckKind.daily_limit
  | PolicyReason.budget_exceeded _ _ => some CheckKind.budget
  | PolicyReason.duplicate_auth _ => some CheckKind.duplicate

/-- C9: _check_policies evaluates per-transaction max, daily limit,
budget, duplicate detection in that fixed order and short-circuits on
the first failure: the checks map is a prefix of that order; on success
it holds all four checks, all passed; on failure its last entry is the
single failing check, every earlier entry passed, and the reason names
exactly that check. -/
theorem policy_checks_order_shortcircuit (st : AuthorizerState) (inv : Invoice)
    (req : AuthorizationRequest) (today : String) :
    List.IsPrefix ((check_policies st inv req today).checks.map kindOf)
      [CheckKind.per_transaction, CheckKind.daily_limit, CheckKind.budget,
       CheckKind.duplicate] ∧
    ((check_policies st inv req today).allowed = true →
      (check_policies st inv req today).checks.map kindOf =
        [CheckKind.per_transaction, CheckKind.daily_limit, CheckKind.budget,
         CheckKind.duplicate] ∧
      (∀ c ∈ (check_policies st inv req today).checks, checkPassed c = true) ∧
      (check_policies st inv req today).reason = PolicyReason.all_passed) ∧
    ((check_policies st inv req today).allowed = false →
      ∃ c, (check_policies st inv req today).checks.getLast? = some c ∧
        checkPassed c = false ∧
        (∀ c' ∈ (check_policies st inv req today).checks.dropLast,
          checkPassed c' = true) ∧
        reasonKind (check_policies st inv req today).reason = some (kindOf c)) := by
  by_cases h1 : inv.amount_usd ≤ st.policy.per_transaction_max
  · by_cases h2 : spentToday st today + inv.amount_usd ≤ st.policy.daily_limit
    · by_cases h3 : inv.amount_usd ≤ req.budget_remaining
      · by_cases h4 : dupExists st inv.invoice_id
        · have hcp : check_policies st inv req today =
              { allowed := false
                reason := PolicyReason.duplicate_auth inv.invoice_id
                checks :=
                  [PolicyCheck.per_transaction st.policy.per_transaction_max
                     inv.amount_usd (decide (inv.amount_usd ≤ st.policy.per_transaction_max)),
                   PolicyCheck.daily_limit st.policy.daily_limit (spentToday st today)
                     (spentToday st today + inv.amount_usd)
                     (decide (spentToday st today + inv.amount_usd ≤ st.policy.daily_limit)),
                   PolicyCheck.budget req.budget_total req.budget_remaining
                     inv.amount_usd (decide (inv.amount_usd ≤ req.budget_remaining)),
                   PolicyCheck.duplicate inv.invoice_id (! dupExists st inv.invoice_id)] } := by
            simp only [check_policies]
            rw [if_neg (not_not_intro h1), if_neg (not_not_intro h2),
              if_neg (not_not_intro h3), if_pos h4]
          rw [hcp]
          refine ⟨⟨[], by simp [kindOf]⟩, ?_, ?_⟩
          · intro habs
            simp at habs
          · intro _
            refine ⟨_, rfl, ?_, ?_, rfl⟩
            · simp [checkPassed, h4]
            · intro c' hc'
              simp only [List.dropLast, List.mem_cons, List.not_mem_nil, or_false] at hc'
              rcases hc' with rfl | rfl | rfl
              · simp [checkPassed, decide_eq_true h1]
              · simp [checkPassed, decide_eq_true h2]
              · simp [checkPassed, decide_eq_true h3]
        · have hcp : check_policies st inv req today =
              { allowed := true
                reason := PolicyReason.all_passed
                checks :=
                  [PolicyCheck.per_transaction st.policy.per_transaction_max
                     inv.amount_usd (decide (inv.amount_usd ≤ st.policy.per_transaction_max)),
                   PolicyCheck.daily_limit st.policy.daily_limit (spentToday st today)
                     (spentToday st today + inv.amount_usd)
                     (decide (spentToday st today + inv.amount_usd ≤ st.policy.daily_limit)),
                   PolicyCheck.budget req.budget_total req.budget_remaining
                     inv.amount_usd (decide (inv.amount_usd ≤ req.budget_remaining)),
                   PolicyCheck.duplicate inv.invoice_id (! dupExists st inv.invoice_id)] } := by
            simp only [check_policies]
            rw [if_neg (not_not_intro h1), if_neg (not_not_intro h2),
              if_neg (not_not_intro h3), if_neg h4]
          rw [hcp]
          refine ⟨⟨[], by simp [kindOf]⟩, ?_, ?_⟩
          · intro _
            refine ⟨by simp [kindOf], ?_, rfl⟩
            intro c hc
            simp only [List.mem_cons] at hc
            rcases hc with rfl | rfl | rfl | rfl | h
            · simp [checkPassed, decide_eq_true h1]
            · simp [checkPassed, decide_eq_true h2]
            · simp [checkPassed, decide_eq_true h3]
            · simp only [checkPassed]
              simp at h4
              simp [h4]
            · cases h
          · intro habs
            simp at habs
      · have hcp : check_policies st inv req today =
            { allowed := false
              reason := PolicyReason.budget_exceeded inv.amount_usd req.budget_remaining
              checks :=
                [PolicyCheck.per_transaction st.policy.per_transaction_max
                   inv.amount_usd (decide (inv.amount_usd ≤ st.policy.per_transaction_max)),
                 PolicyCheck.daily_limit st.policy.daily_limit (spentToday st today)
                   (spentToday st today + inv.amount_usd)
                   (decide (spentToday st today + inv.amount_usd ≤ st.policy.daily_limit)),
                 PolicyCheck.budget req.budget_total req.budget_remaining
                   inv.amount_usd (decide (inv.amount_usd ≤ req.budget_remaining))] } := by
          simp only [check_policies]
          rw [if_neg (not_not_intro h1), if_neg (not_not_intro h2), if_pos h3]
        rw [hcp]
        refine ⟨⟨[CheckKind.duplicate], rfl⟩, ?_, ?_⟩
        · intro habs
          simp at habs
        · intro _
          refine ⟨_, rfl, ?_, ?_, rfl⟩
          · simp [checkPassed, decide_eq_false h3]
          · intro c' hc'
            simp only [List.dropLast, List.mem_cons, List.not_mem_nil, or_false] at hc'
            rcases hc' with rfl | rfl
            · simp [checkPassed, decide_eq_true h1]
            · simp [checkPassed, decide_eq_true h2]
    · have hcp : check_policies st inv req today =
          { allowed := false
            reason := PolicyReason.daily_limit_exceeded
              (spentToday st today + inv.amount_usd) st.policy.daily_limit
            checks :=
              [PolicyCheck.per_transaction st.policy.per_transaction_max
                 inv.amount_usd (decide (inv.amount_usd ≤ st.policy.per_transaction_max)),
               PolicyCheck.daily_limit st.policy.daily_limit (spentToday st today)
                 (spentToday st today + inv.amount_usd)
                 (decide (spentToday st today + inv.amount_usd ≤ st.policy.daily_limit))] } := by
        simp only [check_policies]
        rw [if_neg (not_not_intro h1), if_pos h2]
      rw [hcp]
      refine ⟨⟨[CheckKind.budget, CheckKind.duplicate], rfl⟩, ?_, ?_⟩
      · intro habs
        simp at habs
      · intro _
        refine ⟨_, rfl, ?_, ?_, rfl⟩
        · simp [checkPassed, decide_eq_false h2]
        · intro c' hc'
          simp only [List.dropLast, List.mem_cons, List.not_mem_nil, or_false] at hc'
          rcases hc' with rfl
          simp [checkPassed, decide_eq_true h1]
  · have hcp : check_policies st inv req today =
        { allowed := false
          reason := PolicyReason.per_transaction_exceeded inv.amount_usd
            st.policy.per_transaction_max
          checks :=
            [PolicyCheck.per_transaction st.policy.per_transaction_max
               inv.amount_usd (decide (inv.amount_usd ≤ st.policy.per_transaction_max))] } := by
      simp only [check_policies]
      rw [if_pos h1]
    rw [hcp]
    refine ⟨⟨[CheckKind.daily_limit, CheckKind.budget, CheckKind.duplicate], rfl⟩,
      ?_, ?_⟩
    · intro habs
      simp at habs
    · intro _
      refine ⟨_, rfl, ?_, ?_, rfl⟩
      · simp [checkPassed, decide_eq_false h1]
      · intro c' hc'
        simp only [List.dropLast, List.not_mem_nil] at hc'

/-- C9 witness: at a fresh authorizer with an over-limit amount, the
rejection's checks map ends at the failing per-transaction check and
the reason names it. -/
theorem policy_checks_order_shortcircuit_witness :
    (check_policies (initState {}) (invA "I9" 600) (reqOf "I9" 600) "d9").allowed =
      false ∧
    ∃ c, (check_policies (initState {}) (invA "I9" 600)
        (reqOf "I9" 600) "d9").checks.getLast? = some c ∧
      checkPassed c = false ∧
      (∀ c' ∈ (check_policies (initState {}) (invA "I9" 600)
          (reqOf "I9" 600) "d9").checks.dropLast, checkPassed c' = true) ∧
      reasonKind (check_policies (initState {}) (invA "I9" 600)
          (reqOf "I9" 600) "d9").reason = some (kindOf c) := by
  have hall : (check_policies (initState {}) (invA "I9" 600)
      (reqOf "I9" 600) "d9").allowed = false := by
    norm_num [check_policies, spentToday, dupExists, SDict.lookup, SDict.values,
      initState, invA, reqOf]
  exact ⟨hall,
    (policy_checks_order_shortcircuit (initState {}) (invA "I9" 600)
      (reqOf "I9" 600) "d9").2.2 hall⟩

/-! ## C5 and C10: duplicate detection and response-cache eviction -/

/-- Number of live auth tokens bound to the given invoice id. -/
def tokenCountFor (st : AuthorizerState) (invoice_id : String) : ℕ :=
  st.auth_tokens.countP (fun p => decide (p.2 = invoice_id))

/-- A request carrying a caller-supplied idempotency key (request_id),
as the repo's demo flow does (demo_full_flow.py passes
request_id=business_id). -/
def reqWith (rid id : String) (amt : ℚ) : AuthorizationRequest :=
  { invoice := invA id amt, budget_total := 100000, budget_remaining := 100000,
    request_id := some rid }

theorem check_policies_not_allowed_of_dup (st : AuthorizerState) (inv : Invoice)
    (req : AuthorizationRequest) (today : String)
    (h : dupExists st inv.invoice_id = true) :
    (check_policies st inv req today).allowed = false := by
  by_cases h1 : inv.amount_usd ≤ st.policy.per_transaction_max
  · by_cases h2 : spentToday st today + inv.amount_usd ≤ st.policy.daily_limit
    · by_cases h3 : inv.amount_usd ≤ req.budget_remaining
      · simp only [check_policies]
        rw [if_neg (not_not_intro h1), if_neg (not_not_intro h2),
          if_neg (not_not_intro h3), if_pos h]
      · simp only [check_policies]
        rw [if_neg (not_not_intro h1), if_neg (not_not_intro h2), if_pos h3]
    · simp only [check_policies]
      rw [if_neg (not_not_intro h1), if_pos h2]
  · simp only [check_policies]
    rw [if_pos h1]

theorem authorize_dup_rejected (st : AuthorizerState) (req : AuthorizationRequest)
    (env : AuthEnv) (h : dupExists st req.invoice.invoice_id = true) :
    (authorize st req env).1.status = AuthorizationStatus.rejected := by
  have hna := check_policies_not_allowed_of_dup st req.invoice req env.today h
  unfold authorize
  simp [hna]

theorem authorize_dup_reason (st : AuthorizerState) (req : AuthorizationRequest)
    (env : AuthEnv) (h : dupExists st req.invoice.invoice_id = true)
    (h1 : req.invoice.amount_usd ≤ st.policy.per_transaction_max)
    (h2 : spentToday st env.today + req.invoice.amount_usd ≤ st.policy.daily_limit)
    (h3 : req.invoice.amount_usd ≤ req.budget_remaining) :
    (authorize st req env).1.error =
      some (AuthError.policy (PolicyReason.duplicate_auth req.invoice.invoice_id)) := by
  have hcp : check_policies st req.invoice req env.today =
      { allowed := false
        reason := PolicyReason.duplicate_auth req.invoice.invoice_id
        checks :=
          [PolicyCheck.per_transaction st.policy.per_transaction_max
             req.invoice.amount_usd
             (decide (req.invoice.amount_usd ≤ st.policy.per_transaction_max)),
           PolicyCheck.daily_limit st.policy.daily_limit (spentToday st env.today)
             (spentToday st env.today + req.invoice.amount_usd)
             (decide (spentToday st env.today + req.invoice.amount_usd ≤
               st.policy.daily_limit)),
           PolicyCheck.budget req.budget_total req.budget_remaining
             req.invoice.amount_usd
             (decide (req.invoice.amount_usd ≤ req.budget_remaining)),
           PolicyCheck.duplicate req.invoice.invoice_id
             (! dupExists st req.invoice.invoice_id)] } := by
    simp only [check_policies]
    rw [if_neg (not_not_intro h1), if_neg (not_not_intro h2),
      if_neg (not_not_intro h3), if_pos h]
  unfold authorize
  simp [hcp]

/-- C5 (amended): given a cached authorization response for invoice I
with status AUTHORIZED (consumed or not), any authorize call for I is
REJECTED; the rejection carries the duplicate-authorization reason
whenever the per-transaction, daily-limit and budget checks of that
call pass (an earlier failing check yields that check's reason
instead). The claim's at-most-one-token-per-invoice clause does not
hold for the program: responses are cached by request_id and a reused
caller-supplied key evicts the previous entry, after which the invoice
can be re-authorized and a second live token minted for it — see
duplicate_claim_counterexample. -/
theorem duplicate_authorization_rejected :
    (∀ st req env, dupExists st req.invoice.invoice_id = true →
      (authorize st req env).1.status = AuthorizationStatus.rejected) ∧
    (∀ st req env, dupExists st req.invoice.invoice_id = true →
      req.invoice.amount_usd ≤ st.policy.per_transaction_max →
      spentToday st env.today + req.invoice.amount_usd ≤ st.policy.daily_limit →
      req.invoice.amount_usd ≤ req.budget_remaining →
      (authorize st req env).1.error =
        some (AuthError.policy (PolicyReason.duplicate_auth req.invoice.invoice_id))) :=
  ⟨fun st req env h => authorize_dup_rejected st req env h,
   fun st req env h h1 h2 h3 => authorize_dup_reason st req env h h1 h2 h3⟩

/-- C5 witness: after a first authorization of invoice I1, a second
authorize call for I1 is rejected with the duplicate reason. -/
theorem duplicate_authorization_rejected_witness :
    (authorize (authorize (initState {}) (reqOf "I1" 100) (envOf "d1" "a1")).2
      (reqOf "I1" 100) (envOf "d1" "a2")).1.status = AuthorizationStatus.rejected ∧
    (authorize (authorize (initState {}) (reqOf "I1" 100) (envOf "d1" "a1")).2
      (reqOf "I1" 100) (envOf "d1" "a2")).1.error =
      some (AuthError.policy (PolicyReason.duplicate_auth "I1")) := by
  have hdup : dupExists
      (authorize (initState {}) (reqOf "I1" 100) (envOf "d1" "a1")).2 "I1" = true := by
    norm_num [authorize, check_policies, spentToday, dupExists, SDict.lookup,
      SDict.insert, SDict.values, initState, invA, reqOf, envOf,
      record_spending, create_lock]
  refine ⟨duplicate_authorization_rejected.1 _ (reqOf "I1" 100) (envOf "d1" "a2") hdup,
    ?_⟩
  have h1 : (reqOf "I1" 100).invoice.amount_usd ≤
      ((authorize (initState {}) (reqOf "I1" 100) (envOf "d1" "a1")).2).policy.per_transaction_max := by
    norm_num [authorize, check_policies, spentToday, dupExists, SDict.lookup,
      SDict.insert, SDict.values, initState, invA, reqOf, envOf,
      record_spending, create_lock]
  have h2 : spentToday (authorize (initState {}) (reqOf "I1" 100) (envOf "d1" "a1")).2
        (envOf "d1" "a2").today + (reqOf "I1" 100).invoice.amount_usd ≤
      ((authorize (initState {}) (reqOf "I1" 100) (envOf "d1" "a1")).2).policy.daily_limit := by
    norm_num [authorize, check_policies, spentToday, dupExists, SDict.lookup,
      SDict.insert, SDict.values, initState, invA, reqOf, envOf,
      record_spending, create_lock]
  have h3 : (reqOf "I1" 100).invoice.amount_usd ≤ (reqOf "I1" 100).budget_remaining := by
    norm_num [invA, reqOf]
  exact duplicate_authorization_rejected.2 _ (reqOf "I1" 100) (envOf "d1" "a2")
    hdup h1 h2 h3

/-- First step of the eviction trace: authorize invoice I1 under the
caller-supplied idempotency key R (token "a1" minted). -/
def dupSt1 : AuthorizerState :=
  (authorize (initState {}) (reqWith "R" "I1" 100) (envOf "d1" "a1")).2

/-- Second step: authorize invoice I2 under the same key R; caching the
response overwrites the entry holding I1's AUTHORIZED response. -/
def dupSt2 : AuthorizerState :=
  (authorize dupSt1 (reqWith "R" "I2" 100) (envOf "d1" "a2")).2

/-- Third step: authorize I1 again under a fresh key R3 (token "a3"). -/
def dupSt3 : AuthorizerState :=
  (authorize dupSt2 (reqWith "R3" "I1" 100) (envOf "d1" "a3")).2

/-- C5 counterexample: both overclaims fail on the code. Reason part:
with policy 1500/2000/5000, invoice I1 for 1500 is authorized and its
token "a1" is still live, yet a second authorize for I1 (same amount)
is rejected with the daily-limit reason (3000 over 2000), not the
duplicate reason. Uniqueness part: authorizing I1 under key R, then I2
under the same key R (which evicts I1's cached response), then I1 again
under key R3, reaches a state where a cached AUTHORIZED response for I1
is live and unconsumed (token "a3") while two live tokens ("a1" and
"a3") are bound to I1. -/
theorem duplicate_claim_counterexample :
    (authorize (initState {}) (reqWith "R" "I1" 100) (envOf "d1" "a1")).1.status =
      AuthorizationStatus.authorized ∧
    (authorize dupSt1 (reqWith "R" "I2" 100) (envOf "d1" "a2")).1.status =
      AuthorizationStatus.authorized ∧
    (authorize dupSt2 (reqWith "R3" "I1" 100) (envOf "d1" "a3")).1.status =
      AuthorizationStatus.authorized ∧
    dupExists dupSt3 "I1" = true ∧
    SDict.lookup dupSt3.auth_tokens "a3" = some "I1" ∧
    tokenCountFor dupSt3 "I1" = 2 ∧
    dupExists (authorize
      (initState { per_transaction_max := 1500, daily_limit := 2000, weekly_limit := 5000 })
      (reqOf "I1" 1500) (envOf "d1" "a1")).2 "I1" = true ∧
    SDict.lookup (authorize
      (initState { per_transaction_max := 1500, daily_limit := 2000, weekly_limit := 5000 })
      (reqOf "I1" 1500) (envOf "d1" "a1")).2.auth_tokens "a1" = some "I1" ∧
    (authorize (authorize
      (initState { per_transaction_max := 1500, daily_limit := 2000, weekly_limit := 5000 })
      (reqOf "I1" 1500) (envOf "d1" "a1")).2
      (reqOf "I1" 1500) (envOf "d1" "a2")).1.status = AuthorizationStatus.rejected ∧
    (authorize (authorize
      (initState { per_transaction_max := 1500, daily_limit := 2000, weekly_limit := 5000 })
      (reqOf "I1" 1500) (envOf "d1" "a1")).2
      (reqOf "I1" 1500) (envOf "d1" "a2")).1.error =
      some (AuthError.policy (PolicyReason.daily_limit_exceeded 3000 2000)) := by
  have hI12 : ¬ ("I1" = "I2") := by decide
  have hI21 : ¬ ("I2" = "I1") := by decide
  have hR : ¬ ("R" = "R3") := by decide
  have ha12 : ¬ ("a1" = "a2") := by decide
  have ha13 : ¬ ("a1" = "a3") := by decide
  have ha23 : ¬ ("a2" = "a3") := by decide
  refine ⟨?_, ?_, ?_, ?_, ?_, ?_, ?_, ?_, ?_, ?_⟩ <;>
    norm_num [authorize, check_policies, spentToday, dupExists, SDict.lookup,
      SDict.insert, SDict.values, initState, invA, reqOf, reqWith, envOf,
      record_spending, create_lock, tokenCountFor, dupSt1, dupSt2, dupSt3,
      hI12, hI21, hR, ha12, ha13, ha23]

/-- C10 (amended): consume_auth_token pops only the live-token map and
leaves the response cache untouched, so duplicate detection does not
distinguish consumed from unconsumed invoices: as long as a cached
response for invoice I still has status AUTHORIZED, an authorize call
for I after any consume is rejected, with the duplicate reason whenever
the per-transaction, daily-limit and budget checks pass. The cached
entry is not immortal, though: an authorize reusing its request_id key
overwrites it, after which I can be re-authorized — see
evicted_cache_allows_reauthorization. -/
theorem consume_preserves_duplicate_detection (st : AuthorizerState) (t : String)
    (req : AuthorizationRequest) (env : AuthEnv)
    (hdup : dupExists st req.invoice.invoice_id = true) :
    (consume_auth_token st t).2.authorizations = st.authorizations ∧
    dupExists (consume_auth_token st t).2 req.invoice.invoice_id = true ∧
    (authorize (consume_auth_token st t).2 req env).1.status =
      AuthorizationStatus.rejected ∧
    (req.invoice.amount_usd ≤ st.policy.per_transaction_max →
     spentToday st env.today + req.invoice.amount_usd ≤ st.policy.daily_limit →
     req.invoice.amount_usd ≤ req.budget_remaining →
     (authorize (consume_auth_token st t).2 req env).1.error =
       some (AuthError.policy (PolicyReason.duplicate_auth req.invoice.invoice_id))) := by
  refine ⟨rfl, hdup, authorize_dup_rejected _ req env hdup, ?_⟩
  intro h1 h2 h3
  exact authorize_dup_reason _ req env hdup h1 h2 h3

/-- C10 witness: authorize invoice I1, consume its token "a1", then a
new authorize for I1 is still rejected with the duplicate reason. -/
theorem consume_preserves_duplicate_detection_witness :
    (authorize (consume_auth_token
      (authorize (initState {}) (reqOf "I1" 100) (envOf "d1" "a1")).2 "a1").2
      (reqOf "I1" 100) (envOf "d1" "a2")).1.status = AuthorizationStatus.rejected ∧
    (authorize (consume_auth_token
      (authorize (initState {}) (reqOf "I1" 100) (envOf "d1" "a1")).2 "a1").2
      (reqOf "I1" 100) (envOf "d1" "a2")).1.error =
      some (AuthError.policy (PolicyReason.duplicate_auth "I1")) := by
  have hdup : dupExists
      (authorize (initState {}) (reqOf "I1" 100) (envOf "d1" "a1")).2 "I1" = true := by
    norm_num [authorize, check_policies, spentToday, dupExists, SDict.lookup,
      SDict.insert, SDict.values, initState, invA, reqOf, envOf,
      record_spending, create_lock]
  have h := consume_preserves_duplicate_detection
    (authorize (initState {}) (reqOf "I1" 100) (envOf "d1" "a1")).2 "a1"
    (reqOf "I1" 100) (envOf "d1" "a2") hdup
  refine ⟨h.2.2.1, h.2.2.2 ?_ ?_ ?_⟩ <;>
    norm_num [authorize, check_policies, spentToday, dupExists, SDict.lookup,
      SDict.insert, SDict.values, initState, invA, reqOf, envOf,
      record_spending, create_lock]

/-- Authorizer state after authorizing I1 under key R (token "a1"). -/
def evictSt1 : AuthorizerState :=
  (authorize (initState {}) (reqWith "R" "I1" 100) (envOf "d1" "a1")).2

/-- After consuming I1's token "a1". -/
def evictSt2 : AuthorizerState :=
  (consume_auth_token evictSt1 "a1").2

/-- After authorizing I2 under the same key R, which overwrites the
cache entry holding I1's AUTHORIZED response. -/
def evictSt3 : AuthorizerState :=
  (authorize evictSt2 (reqWith "R" "I2" 100) (envOf "d1" "a2")).2

/-- C10 counterexample: the cached AuthorizationResponse does not keep
status AUTHORIZED forever, and an invoice once authorized can be
re-authorized by the same authorizer instance. I1 is authorized under
key R and its token consumed; authorizing I2 under the same key R
overwrites the cache entry, so no AUTHORIZED response for I1 remains;
a new authorize for I1 then returns AUTHORIZED instead of being
rejected as a duplicate. -/
theorem evicted_cache_allows_reauthorization :
    (authorize (initState {}) (reqWith "R" "I1" 100) (envOf "d1" "a1")).1.status =
      AuthorizationStatus.authorized ∧
    (consume_auth_token evictSt1 "a1").1 = some "I1" ∧
    (authorize evictSt2 (reqWith "R" "I2" 100) (envOf "d1" "a2")).1.status =
      AuthorizationStatus.authorized ∧
    dupExists evictSt3 "I1" = false ∧
    (authorize evictSt3 (reqWith "R4" "I1" 100) (envOf "d1" "a4")).1.status =
      AuthorizationStatus.authorized := by
  have hI12 : ¬ ("I1" = "I2") := by decide
  have hI21 : ¬ ("I2" = "I1") := by decide
  have hR4 : ¬ ("R" = "R4") := by decide
  have ha24 : ¬ ("a2" = "a4") := by decide
  refine ⟨?_, ?_, ?_, ?_, ?_⟩ <;>
    norm_num [authorize, check_policies, spentToday, dupExists, SDict.lookup,
      SDict.insert, SDict.erase, SDict.values, initState, invA, reqWith, envOf,
      record_spending, create_lock, consume_auth_token, evictSt1, evictSt2,
      evictSt3, hI12, hI21, hR4, ha24]

/-! ## C4: escrow terminal invariant -/

theorem expireOne_not_locked (now : ℤ) (lock : EscrowLock)
    (h : lock.status ≠ EscrowStatus.locked) : expireOne now lock = lock := by
  unfold expireOne
  rw [if_neg (fun hc => h hc.1)]

theorem expireOne_post (now : ℤ) (lock : EscrowLock) :
    ¬ ((expireOne now lock).status = EscrowStatus.locked ∧
       now > (expireOne now lock).expires_at) := by
  unfold expireOne
  by_cases h : lock.status = EscrowStatus.locked ∧ now > lock.expires_at
  · rw [if_pos h]
    rintro ⟨hs, -⟩
    cases hs
  · rw [if_neg h]
    exact h

theorem expireOne_idem (now : ℤ) (lock : EscrowLock) :
    expireOne now (expireOne now lock) = expireOne now lock := by
  conv_lhs => rw [expireOne]
  rw [if_neg (expireOne_post now lock)]

/-- C4: once a lock is in a terminal status (RELEASED, REFUNDED or
EXPIRED, i.e. not LOCKED), release_to_vendor returns None and
refund_to_business returns False without touching the state,
expire_old_locks leaves the lock untouched and a repeated sweep
expires nothing and changes nothing; and each of the three operations
changes a stored lock only by the transition LOCKED to RELEASED,
LOCKED to REFUNDED, or LOCKED to EXPIRED respectively. -/
theorem escrow_terminal_no_mutation :
    (∀ st eid lock vid vw ac rid rtx now,
      SDict.lookup st.escrows eid = some lock →
      lock.status ≠ EscrowStatus.locked →
      release_to_vendor st eid vid vw ac rid rtx now = (none, st)) ∧
    (∀ st eid lock reason now,
      SDict.lookup st.escrows eid = some lock →
      lock.status ≠ EscrowStatus.locked →
      refund_to_business st eid reason now = (false, st)) ∧
    (∀ st eid lock now,
      SDict.lookup st.escrows eid = some lock →
      lock.status ≠ EscrowStatus.locked →
      SDict.lookup (expire_old_locks st now).2.escrows eid = some lock) ∧
    (∀ st now, expire_old_locks (expire_old_locks st now).2 now =
      (0, (expire_old_locks st now).2)) ∧
    (∀ st eid vid vw ac rid rtx now eid',
      SDict.lookup (release_to_vendor st eid vid vw ac rid rtx now).2.escrows eid' =
        SDict.lookup st.escrows eid' ∨
      (∃ l l', SDict.lookup st.escrows eid' = some l ∧
        l.status = EscrowStatus.locked ∧
        SDict.lookup (release_to_vendor st eid vid vw ac rid rtx now).2.escrows eid' =
          some l' ∧
        l'.status = EscrowStatus.released)) ∧
    (∀ st eid reason now eid',
      SDict.lookup (refund_to_business st eid reason now).2.escrows eid' =
        SDict.lookup st.escrows eid' ∨
      (∃ l l', SDict.lookup st.escrows eid' = some l ∧
        l.status = EscrowStatus.locked ∧
        SDict.lookup (refund_to_business st eid reason now).2.escrows eid' = some l' ∧
        l'.status = EscrowStatus.refunded)) ∧
    (∀ st now eid',
      SDict.lookup (expire_old_locks st now).2.escrows eid' =
        SDict.lookup st.escrows eid' ∨
      (∃ l l', SDict.lookup st.escrows eid' = some l ∧
        l.status = EscrowStatus.locked ∧
        SDict.lookup (expire_old_locks st now).2.escrows eid' = some l' ∧
        l'.status = EscrowStatus.expired)) := by
  refine ⟨?_, ?_, ?_, ?_, ?_, ?_, ?_⟩
  · intro st eid lock vid vw ac rid rtx now h hterm
    unfold release_to_vendor
    rw [h]
    simp only []
    rw [if_pos hterm]
  · intro st eid lock reason now h hterm
    unfold refund_to_business
    rw [h]
    simp only []
    rw [if_pos hterm]
  · intro st eid lock now h hterm
    show SDict.lookup (st.escrows.map (fun p => (p.1, expireOne now p.2))) eid =
      some lock
    rw [SDict.lookup_mapval, h]
    simp [expireOne_not_locked now lock hterm]
  · intro st now
    simp only [expire_old_locks]
    rw [Prod.mk.injEq]
    constructor
    · rw [List.countP_eq_zero]
      intro p hp
      rcases List.mem_map.mp hp with ⟨q, hq, rfl⟩
      simpa using expireOne_post now q.2
    · rw [List.map_map]
      have hfun : ((fun p : String × EscrowLock => (p.1, expireOne now p.2)) ∘
          (fun p : String × EscrowLock => (p.1, expireOne now p.2))) =
          (fun p : String × EscrowLock => (p.1, expireOne now p.2)) :=
        funext fun p => by simp [Function.comp, expireOne_idem]
      rw [hfun]
  · intro st eid vid vw ac rid rtx now eid'
    unfold release_to_vendor
    cases h : SDict.lookup st.escrows eid with
    | none => left; rfl
    | some lock =>
      simp only []
      by_cases hs : lock.status ≠ EscrowStatus.locked
      · rw [if_pos hs]
        left
        rfl
      · rw [if_neg hs]
        by_cases he : eid' = eid
        · subst he
          right
          exact ⟨lock, _, h, not_not.mp hs, SDict.lookup_insert_self _ _ _, rfl⟩
        · left
          exact SDict.lookup_insert_ne _ _ _ _ he
  · intro st eid reason now eid'
    unfold refund_to_business
    cases h : SDict.lookup st.escrows eid with
    | none => left; rfl
    | some lock =>
      simp only []
      by_cases hs : lock.status ≠ EscrowStatus.locked
      · rw [if_pos hs]
        left
        rfl
      · rw [if_neg hs]
        by_cases he : eid' = eid
        · subst he
          right
          exact ⟨lock, _, h, not_not.mp hs, SDict.lookup_insert_self _ _ _, rfl⟩
        · left
          exact SDict.lookup_insert_ne _ _ _ _ he
  · intro st now eid'
    have hexp : (expire_old_locks st now).2.escrows =
        st.escrows.map (fun p => (p.1, expireOne now p.2)) := rfl
    rw [hexp, SDict.lookup_mapval]
    cases h : SDict.lookup st.escrows eid' with
    | none => left; rfl
    | some l =>
      by_cases hc : l.status = EscrowStatus.locked ∧ now > l.expires_at
      · right
        refine ⟨l, { l with status := EscrowStatus.expired }, rfl, hc.1, ?_, rfl⟩
        have hone : expireOne now l = { l with status := EscrowStatus.expired } := by
          rw [expireOne, if_pos hc]
        have hmap : (some l).map (expireOne now) = some (expireOne now l) := rfl
        rw [hmap, hone]
      · left
        have hone : expireOne now l = l := by
          rw [expireOne, if_neg hc]
        have hmap : (some l).map (expireOne now) = some (expireOne now l) := rfl
        rw [hmap, hone]

/-- A lock already in the terminal RELEASED state, for the C4 witness. -/
def lockR : EscrowLock :=
  { escrow_id := "e1"
    invoice_id := "I1"
    business_id := "B"
    vendor_id := none
    amount_usdc := 150
    auth_token := "tk"
    tx_hash := "tx"
    status := EscrowStatus.released
    locked_at := 0
    expires_at := 10
    released_at := some 1
    release_tx_hash := some "rtx"
    release_recipient := some "v"
    refund_reason := none }

/-- An escrow store holding only the released lock. -/
def stTerm : EscrowState := { escrows := [("e1", lockR)], releases := [] }

/-- C4 witness: on the released lock, release and refund return the
InvalidState outcome unchanged, the expiry sweep skips it, and an
immediate second sweep expires nothing. -/
theorem escrow_terminal_no_mutation_witness :
    release_to_vendor stTerm "e1" "v2" none none "r9" "tx9" 5 = (none, stTerm) ∧
    refund_to_business stTerm "e1" "user cancelled" 5 = (false, stTerm) ∧
    SDict.lookup (expire_old_locks stTerm 99).2.escrows "e1" = some lockR ∧
    expire_old_locks (expire_old_locks stTerm 99).2 99 =
      (0, (expire_old_locks stTerm 99).2) := by
  have hl : SDict.lookup stTerm.escrows "e1" = some lockR := by
    simp [stTerm, SDict.lookup]
  have hterm : lockR.status ≠ EscrowStatus.locked := by
    simp [lockR]
  exact ⟨escrow_terminal_no_mutation.1 stTerm "e1" lockR "v2" none none "r9" "tx9" 5
      hl hterm,
    escrow_terminal_no_mutation.2.1 stTerm "e1" lockR "user cancelled" 5 hl hterm,
    escrow_terminal_no_mutation.2.2.1 stTerm "e1" lockR 99 hl hterm,
    escrow_terminal_no_mutation.2.2.2.1 stTerm 99⟩

/-! ## C6 and C7: credential vault -/

/-- An empty mock-mode vault. -/
def vaultMock0 : VaultState :=
  { mock_mode := true, mock_credentials := [], db_credentials := [], access_log := [] }

/-- Mock-mode vault after onboarding business biz1 with routing
021000021, account 123456789012, holder name Alice Smith at Chase. -/
def vaultMock1 : VaultState :=
  (store_credentials vaultMock0 (fun s => s) "biz1" "021000021" "123456789012"
    "Alice Smith" (some "Chase") "cred1" "t0").2

/-- An empty database-mode vault. -/
def vaultDb0 : VaultState :=
  { mock_mode := false, mock_credentials := [], db_credentials := [], access_log := [] }

/-- An authorizer whose live token map binds tok1 to invoice INV1. -/
def authTok1 : AuthorizerState :=
  { initState {} with auth_tokens := [("tok1", "INV1")] }

/-- The ACH_* environment-variable defaults of the mock injection
branch. -/
def achDefaults : AchEnv :=
  { routing := "021000021", account := "1234567890", name := "Haggl Demo Business" }

/-- C6 (amended): get_credential_info returns exactly the non-sensitive
display fields — credential id, last-4 of routing and account, bank
name — plus the account holder name in mock mode and the creation
timestamp in database mode; it never returns the raw routing or account
numbers nor the encrypted fields (for stored routing 021000021 and
account 123456789012 it shows last-4 0021 and 9012); and
get_credentials_for_injection returns plaintext only when
verify_auth_token(auth_token, invoice_id) holds for the very invoice
named in the request. -/
theorem credential_info_masked :
    (∀ st b view, get_credential_info st b = some view →
      view.map Prod.fst =
        ["credential_id", "routing_last4", "account_last4", "account_name",
         "bank_name"] ∨
      view.map Prod.fst =
        ["credential_id", "routing_last4", "account_last4", "bank_name",
         "created_at"]) ∧
    (get_credential_info vaultMock1 "biz1" =
      some [("credential_id", some "cred1"), ("routing_last4", some "0021"),
            ("account_last4", some "9012"), ("account_name", some "Alice Smith"),
            ("bank_name", some "Chase")]) ∧
    (∀ kv ∈ [(("credential_id" : String), (some "cred1" : Option String)),
             ("routing_last4", some "0021"), ("account_last4", some "9012"),
             ("account_name", some "Alice Smith"), ("bank_name", some "Chase")],
      kv.2 ≠ some "021000021" ∧ kv.2 ≠ some "123456789012") ∧
    (∀ st auth ach dec b t i now res,
      (get_credentials_for_injection st auth ach dec b t i now).1 = some res →
      verify_auth_token auth t i = true) := by
  refine ⟨?_, ?_, ?_, ?_⟩
  · intro st b view hv
    by_cases hm : st.mock_mode
    · left
      rw [get_credential_info, if_pos hm] at hv
      rcases Option.map_eq_some'.mp hv with ⟨stored, -, hview⟩
      rw [← hview]
      rfl
    · right
      rw [get_credential_info, if_neg hm] at hv
      rcases Option.map_eq_some'.mp hv with ⟨doc, -, hview⟩
      rw [← hview]
      rfl
  · rfl
  · decide
  · intro st auth ach dec b t i now res h
    by_cases hv : verify_auth_token auth t i
    · exact hv
    · exfalso
      rw [get_credentials_for_injection, if_pos hv] at h
      exact Option.noConfusion h

/-- C6 witness: the masked view of biz1's stored credentials carries
exactly the mock-mode field names. -/
theorem credential_info_masked_witness :
    ([(("credential_id" : String), (some "cred1" : Option String)),
      ("routing_last4", some "0021"), ("account_last4", some "9012"),
      ("account_name", some "Alice Smith"),
      ("bank_name", some "Chase")].map Prod.fst =
      ["credential_id", "routing_last4", "account_last4", "account_name",
       "bank_name"] ∨
     [(("credential_id" : String), (some "cred1" : Option String)),
      ("routing_last4", some "0021"), ("account_last4", some "9012"),
      ("account_name", some "Alice Smith"),
      ("bank_name", some "Chase")].map Prod.fst =
      ["credential_id", "routing_last4", "account_last4", "bank_name",
       "created_at"]) :=
  credential_info_masked.1 vaultMock1 "biz1" _ rfl

/-- C6 counterexample: the claim's field list ("only credential id,
last-4s, bank name") is violated: the mock-mode masked view of biz1
also contains the account_name entry, the plaintext account holder name
— a field the database path stores only encrypted (name_encrypted). -/
theorem credential_info_includes_account_name :
    (("account_name", some "Alice Smith") ∈
      (get_credential_info vaultMock1 "biz1").getD []) ∧
    "account_name" ∉ ["credential_id", "routing_last4", "account_last4",
      "bank_name"] := by
  constructor
  · have h : get_credential_info vaultMock1 "biz1" =
        some [("credential_id", some "cred1"), ("routing_last4", some "0021"),
              ("account_last4", some "9012"), ("account_name", some "Alice Smith"),
              ("bank_name", some "Chase")] := rfl
    rw [h]
    simp
  · decide

/-- C7 (code bug): get_credentials_for_injection does not append one
audit record per call. With a valid token (tok1 bound to INV1): in
database mode with no stored credentials for the business the call
returns None and appends no audit record; a successful mock-mode call
returns plaintext and appends no audit record (mock _log_access writes
only a console line); the denial path in database mode does append
exactly the one denied record the claim describes. -/
theorem injection_audit_record_gap :
    (get_credentials_for_injection vaultDb0 authTok1 achDefaults
      (fun s => some s) "biz1" "tok1" "INV1" "t1").1 = none ∧
    (get_credentials_for_injection vaultDb0 authTok1 achDefaults
      (fun s => some s) "biz1" "tok1" "INV1" "t1").2.access_log = [] ∧
    (get_credentials_for_injection vaultMock1 authTok1 achDefaults
      (fun s => some s) "biz1" "tok1" "INV1" "t1").1 =
      some ("021000021", "1234567890", "Alice Smith") ∧
    (get_credentials_for_injection vaultMock1 authTok1 achDefaults
      (fun s => some s) "biz1" "tok1" "INV1" "t1").2.access_log = [] ∧
    (get_credentials_for_injection vaultDb0 authTok1 achDefaults
      (fun s => some s) "biz1" "BAD" "INV1" "t1").2.access_log =
      [{ business_id := "biz1", action := "denied",
         details := "Invalid auth token for INV1", timestamp := "t1" }] := by
  refine ⟨rfl, rfl, rfl, rfl, rfl⟩

end Haggl
